import Mathlib

/-!
Verification of the dark-pdf viewer core against its specification.

The pixel transform, export pipeline, lazy render scheduler, viewport
fit computation, page navigation, URL-parameter sanitizing and session
persistence are shallowly embedded from the TypeScript sources
(`src/components/pdf-viewer.tsx`, `src/unnamed/part_001`,
`src/unnamed/part_002`).  JavaScript numbers are modelled as exact
rationals; pixel buffers as lists of rationals; the asynchronous render
bookkeeping as an explicit state machine.
-/

namespace DarkPdf

/-- An RGB pixel; channels are rationals, as exact models of the
JavaScript numbers the transform computes with before the final clamp. -/
structure RGB where
  r : ℚ
  g : ℚ
  b : ℚ
deriving DecidableEq, Repr

/-- Clamp of one channel to [0,255]: the source writes
`Math.max(0, Math.min(255, x))` back into the pixel buffer. -/
def clamp255 (x : ℚ) : ℚ := max 0 (min 255 x)

/-- Truncation toward zero, as JavaScript arithmetic truncates
when computing the remainder operator. -/
def jsTrunc (x : ℚ) : ℤ := if 0 ≤ x then ⌊x⌋ else ⌈x⌉

/-- The JavaScript expression `x % 1` (remainder with truncated division). -/
def jsMod1 (x : ℚ) : ℚ := x - jsTrunc x

/-- The helper `hue2rgb(p, q, t)` of `applyFilters`
(src/components/pdf-viewer.tsx): one sector of the HSL-to-RGB conversion. -/
def hue2rgb (p q t : ℚ) : ℚ :=
  let t1 := if t < 0 then t + 1 else t
  let t2 := if t1 > 1 then t1 - 1 else t1
  if t2 < 1/6 then p + (q - p) * 6 * t2
  else if t2 < 1/2 then q
  else if t2 < 2/3 then p + (q - p) * (2/3 - t2) * 6
  else p

/-- The colour-preserve hue rotation of `applyFilters`
(src/components/pdf-viewer.tsx, smart branch): convert the pixel to HSL,
rotate the hue by 180 degrees (`h = (h + 0.5) % 1`), convert back.
The source skips the conversion when `max === min` (achromatic pixel). -/
def hueRotate180 (r g b : ℚ) : RGB :=
  let mx := max r (max g b) / 255
  let mn := min r (min g b) / 255
  let l := (mx + mn) / 2
  if mx = mn then ⟨r, g, b⟩
  else
    let d := mx - mn
    let s := if l > 1/2 then d / (2 - mx - mn) else d / (mx + mn)
    let rn := r / 255
    let gn := g / 255
    let bn := b / 255
    let h0 :=
      if mx = rn then ((gn - bn) / d + (if gn < bn then 6 else 0)) / 6
      else if mx = gn then ((bn - rn) / d + 2) / 6
      else ((rn - gn) / d + 4) / 6
    let h := jsMod1 (h0 + 1/2)
    let q := if l < 1/2 then l * (1 + s) else l + s - l * s
    let p := 2 * l - q
    ⟨hue2rgb p q (h + 1/3) * 255, hue2rgb p q h * 255, hue2rgb p q (h - 1/3) * 255⟩

/-- The saturation boost of `applyFilters`
(src/components/pdf-viewer.tsx, smart branch):
`avg = (r+g+b)/3; c = avg + (c - avg) * 1.1`. -/
def saturationBoost (r g b : ℚ) : RGB :=
  let avg := (r + g + b) / 3
  ⟨avg + (r - avg) * 1.1, avg + (g - avg) * 1.1, avg + (b - avg) * 1.1⟩

/-- The loop body of `applyFilters`
(src/components/pdf-viewer.tsx, lines 758-838) on one pixel:
invert, optional hue rotation plus saturation boost (smart mode),
brightness, contrast, sepia, clamp. -/
def applyFiltersPixel (invert bright contr sep : ℚ) (smart : Bool) (px : RGB) : RGB :=
  let invertRatio := invert / 100
  let brightnessRatio := bright / 100
  let contrastFactor := (contr / 100 - 0.5) * 2
  let sepiaRatio := sep / 100
  let r0 := px.r + (255 - 2 * px.r) * invertRatio
  let g0 := px.g + (255 - 2 * px.g) * invertRatio
  let b0 := px.b + (255 - 2 * px.b) * invertRatio
  let p1 : RGB :=
    if smart then
      let rot := hueRotate180 r0 g0 b0
      saturationBoost rot.r rot.g rot.b
    else ⟨r0, g0, b0⟩
  let r1 := p1.r * brightnessRatio
  let g1 := p1.g * brightnessRatio
  let b1 := p1.b * brightnessRatio
  let r2 := ((r1 / 255 - 0.5) * (1 + contrastFactor) + 0.5) * 255
  let g2 := ((g1 / 255 - 0.5) * (1 + contrastFactor) + 0.5) * 255
  let b2 := ((b1 / 255 - 0.5) * (1 + contrastFactor) + 0.5) * 255
  let sr := r2 * 0.393 + g2 * 0.769 + b2 * 0.189
  let sg := r2 * 0.349 + g2 * 0.686 + b2 * 0.168
  let sb := r2 * 0.272 + g2 * 0.534 + b2 * 0.131
  let r3 := r2 + (sr - r2) * sepiaRatio
  let g3 := g2 + (sg - g2) * sepiaRatio
  let b3 := b2 + (sb - b2) * sepiaRatio
  ⟨clamp255 r3, clamp255 g3, clamp255 b3⟩

/-- Step 1 of the specified pipeline: per-channel inversion
`c = c + (255 - 2c) * (inversion/100)`. -/
def specInvert (inversion : ℚ) (px : RGB) : RGB :=
  ⟨px.r + (255 - 2 * px.r) * (inversion / 100),
   px.g + (255 - 2 * px.g) * (inversion / 100),
   px.b + (255 - 2 * px.b) * (inversion / 100)⟩

/-- Step 2 of the specified pipeline (colour-preserve mode only):
HSL hue rotation by 180 degrees followed by the +10% saturation boost
around the channel mean. -/
def specHueRotateSaturate (px : RGB) : RGB :=
  let rot := hueRotate180 px.r px.g px.b
  saturationBoost rot.r rot.g rot.b

/-- Step 3 of the specified pipeline: multiply each channel by
`brightness/100`. -/
def specBrightness (brightness : ℚ) (px : RGB) : RGB :=
  ⟨px.r * (brightness / 100), px.g * (brightness / 100), px.b * (brightness / 100)⟩

/-- Step 4 of the specified pipeline: contrast
`c = ((c/255 - 0.5) * (1 + contrastFactor) + 0.5) * 255` with
`contrastFactor = (contrast/100 - 0.5) * 2`. -/
def specContrast (contrast : ℚ) (px : RGB) : RGB :=
  let contrastFactor := (contrast / 100 - 0.5) * 2
  ⟨((px.r / 255 - 0.5) * (1 + contrastFactor) + 0.5) * 255,
   ((px.g / 255 - 0.5) * (1 + contrastFactor) + 0.5) * 255,
   ((px.b / 255 - 0.5) * (1 + contrastFactor) + 0.5) * 255⟩

/-- Step 5 of the specified pipeline: blend toward the standard sepia
matrix by ratio `sepia/100`. -/
def specSepia (sepia : ℚ) (px : RGB) : RGB :=
  let sr := px.r * 0.393 + px.g * 0.769 + px.b * 0.189
  let sg := px.r * 0.349 + px.g * 0.686 + px.b * 0.168
  let sb := px.r * 0.272 + px.g * 0.534 + px.b * 0.131
  ⟨px.r + (sr - px.r) * (sepia / 100),
   px.g + (sg - px.g) * (sepia / 100),
   px.b + (sb - px.b) * (sepia / 100)⟩

/-- Step 6 of the specified pipeline: clamp every channel to [0,255]. -/
def specClamp (px : RGB) : RGB := ⟨clamp255 px.r, clamp255 px.g, clamp255 px.b⟩

/-- The loop of `applyFilters` over the flat `ImageData.data` buffer
(src/components/pdf-viewer.tsx): indices advance by 4; at each step the
r, g, b bytes are rewritten through the pixel transform and the alpha
byte `data[i+3]` is left untouched.  An `ImageData` buffer always has
length divisible by 4, so the catch-all case is never reached on real
inputs. -/
def applyFiltersData (invert bright contr sep : ℚ) (smart : Bool) : List ℚ → List ℚ
  | r :: g :: b :: a :: rest =>
      let px := applyFiltersPixel invert bright contr sep smart ⟨r, g, b⟩
      px.r :: px.g :: px.b :: a :: applyFiltersData invert bright contr sep smart rest
  | rest => rest

/-- The pixel transform exactly as the specification words it: the six
steps composed in the fixed order invert, optional hue-rotate plus
saturate, brightness, contrast, sepia, clamp. -/
def specPixelTransform (inversion brightness contrast sepia : ℚ) (smart : Bool) (px : RGB) : RGB :=
  specClamp (specSepia sepia (specContrast contrast (specBrightness brightness
    ((if smart then specHueRotateSaturate else id) (specInvert inversion px)))))

/-- The per-page filter stage of `exportPDF`
(src/components/pdf-viewer.tsx, lines 732-736): the rendered surface is
run through `applyFilters` only when dark mode is enabled; otherwise the
pixel buffer is passed to the encoder unchanged. -/
def exportPagePixels (darkMode smart : Bool) (invert bright contr sep : ℚ)
    (data : List ℚ) : List ℚ :=
  if darkMode then applyFiltersData invert bright contr sep smart data else data

/-- Outcome of one export run: `saved` holds the assembled artifact when
`pdf.save` was reached, `errorReported` records whether the catch block
reported the single terminal error. -/
structure ExportResult (α : Type) where
  saved : Option (List α)
  errorReported : Bool
deriving Repr

/-- The page loop of `exportPDF` (src/components/pdf-viewer.tsx,
lines 723-746): pages `start, start+1, ...` are rendered in order inside
one try block, so the first page whose render throws aborts the rest of
the loop. -/
def renderPages {ε α : Type} (render : ℕ → Except ε α) : ℕ → ℕ → Except ε (List α)
  | _, 0 => .ok []
  | start, n + 1 =>
      match render start with
      | .error e => .error e
      | .ok img =>
          match renderPages render (start + 1) n with
          | .error e => .error e
          | .ok imgs => .ok (img :: imgs)

/-- `exportPDF` (src/components/pdf-viewer.tsx, lines 716-756) as a
whole: the loop runs over pages 1..total inside a try block; only when
every page succeeded is `pdf.save` reached, otherwise the catch block
reports one terminal error and nothing is persisted. -/
def exportPDF {ε α : Type} (render : ℕ → Except ε α) (total : ℕ) : ExportResult α :=
  match renderPages render 1 total with
  | .ok imgs => ⟨some imgs, false⟩
  | .error _ => ⟨none, true⟩

/-- The per-page render bookkeeping of scroll mode
(src/components/pdf-viewer.tsx): `rendering` models the
`renderingPages` ref, `rendered` the `renderedPages` state. -/
structure SchedState where
  rendering : Finset ℕ
  rendered : Finset ℕ
deriving DecidableEq

/-- One visibility trigger reaching `renderPageToCanvas`
(src/components/pdf-viewer.tsx, lines 392-416): a page already present
in `renderingPages` returns immediately; otherwise it is added and a
render starts.  The boolean reports whether a new render started. -/
def renderPageTrigger (s : SchedState) (p : ℕ) : SchedState × Bool :=
  if p ∈ s.rendering then (s, false)
  else ({ s with rendering := insert p s.rendering }, true)

/-- Completion of an in-flight render of page `p`
(src/components/pdf-viewer.tsx, lines 409-415): on success the page is
added to `renderedPages`; the finally block removes it from
`renderingPages` in every case. -/
def renderPageComplete (s : SchedState) (p : ℕ) (success : Bool) : SchedState :=
  { rendering := s.rendering.erase p
    rendered := if success then insert p s.rendered else s.rendered }

/-- `k` overlapping visibility triggers for page `p`, none of which is
separated by a completion; the second component counts how many renders
actually started. -/
def renderPageTriggerN (p : ℕ) : ℕ → SchedState → SchedState × ℕ
  | 0, s => (s, 0)
  | k + 1, s =>
      let t := renderPageTrigger s p
      let rest := renderPageTriggerN p k t.1
      (rest.1, (if t.2 then 1 else 0) + rest.2)

/-- Fit axis of the viewer (`fitMode` values beside `null`). -/
inductive FitMode where
  | width
  | height
deriving DecidableEq, Repr

/-- `calculateFitScale` (src/components/pdf-viewer.tsx, lines 251-261):
the scale is derived from the container client size minus 32px padding
and the page viewport at scale 1, clamped into [0.01, 9].  The prior
scale is not an input. -/
def calculateFitScale (clientW clientH pageW pageH : ℚ) (mode : FitMode) : ℚ :=
  let containerWidth := clientW - 32
  let containerHeight := clientH - 32
  match mode with
  | .height => min (max (containerHeight / pageH) 0.01) 9
  | .width => min (max (containerWidth / pageW) 0.01) 9

/-- The zoom-relevant viewer state: the current scale and the active fit
axis (`null` when the last zoom was manual). -/
structure ZoomState where
  scale : ℚ
  fitMode : Option FitMode
deriving DecidableEq, Repr

/-- `zoomToFit` (src/components/pdf-viewer.tsx, line 560): set fit mode
to width and recompute the scale from the container and the unscaled
page. -/
def zoomToFit (_st : ZoomState) (clientW clientH pageW pageH : ℚ) : ZoomState :=
  ⟨calculateFitScale clientW clientH pageW pageH .width, some .width⟩

/-- `zoomToFitHeight` (src/components/pdf-viewer.tsx, line 561): set fit
mode to height and recompute the scale from the container and the
unscaled page. -/
def zoomToFitHeight (_st : ZoomState) (clientW clientH pageW pageH : ℚ) : ZoomState :=
  ⟨calculateFitScale clientW clientH pageW pageH .height, some .height⟩

/-- The page-navigation state of the viewer. -/
structure NavState where
  currentPage : ℤ
  totalPages : ℤ
deriving DecidableEq, Repr

/-- `goToPage` as exposed through `onViewerReady`
(src/components/pdf-viewer.tsx, lines 188-197): the page is set only
when `page >= 1 && page <= totalPages`; otherwise the call does nothing
and raises no error. -/
def goToPage (st : NavState) (page : ℤ) : NavState :=
  if 1 ≤ page ∧ page ≤ st.totalPages then { st with currentPage := page } else st

/-- `sanitizeNumber` (src/unnamed/part_002, lines 29-34).  The
`parseFloat` result is modelled as an `Option ℚ`: `none` stands for a
missing parameter or a NaN parse, which return the default; a parsed
number is clamped by `Math.max(min, Math.min(max, num))`. -/
def sanitizeNumber (value : Option ℚ) (lo hi defaultVal : ℚ) : ℚ :=
  match value with
  | none => defaultVal
  | some num => max lo (min hi num)

/-- The numeric URL query parameters as read on load, each `none` when
absent or unparsable. -/
structure UrlNumericParams where
  inv : Option ℚ
  br : Option ℚ
  ct : Option ℚ
  sp : Option ℚ
  p : Option ℚ
  z : Option ℚ

/-- The numeric settings produced by the URL parse. -/
structure NumericSettings where
  inversion : ℚ
  brightness : ℚ
  contrast : ℚ
  sepia : ℚ
  page : ℚ
  zoom : ℚ
deriving DecidableEq, Repr

/-- The mount-time parse of `useUrlParams` (src/unnamed/part_002,
lines 61-89): every numeric parameter is independently run through
`sanitizeNumber` with its documented range; an absent parameter leaves
the default in force.  Page and zoom fall back to the constants 1. -/
def parseUrlNumericParams (defaults : NumericSettings) (raw : UrlNumericParams) :
    NumericSettings :=
  { inversion := sanitizeNumber raw.inv 0 100 defaults.inversion
    brightness := sanitizeNumber raw.br 0 300 defaults.brightness
    contrast := sanitizeNumber raw.ct 0 300 defaults.contrast
    sepia := sanitizeNumber raw.sp 0 100 defaults.sepia
    page := sanitizeNumber raw.p 1 10000 1
    zoom := sanitizeNumber raw.z 0.5 3 1 }

/-- One stored session (src/unnamed/part_001): the fields the eviction
logic touches; `timestamp` is the write time recorded by `saveSession`. -/
structure StoredSession where
  pageNum : ℕ
  zoom : ℚ
  timestamp : ℕ
deriving DecidableEq, Repr

/-- JavaScript object property assignment `sessions[hash] = v` on a
record modelled as an association list with unique keys. -/
def setEntry (store : List (ℕ × StoredSession)) (k : ℕ) (v : StoredSession) :
    List (ℕ × StoredSession) :=
  if store.any (fun e => e.1 = k) then
    store.map (fun e => if e.1 = k then (k, v) else e)
  else store ++ [(k, v)]

/-- Insertion into a list already sorted by descending timestamp,
keeping stability as the JavaScript sort does. -/
def insertDesc (e : ℕ × StoredSession) : List (ℕ × StoredSession) → List (ℕ × StoredSession)
  | [] => [e]
  | x :: xs =>
      if e.2.timestamp ≤ x.2.timestamp then x :: insertDesc e xs
      else e :: x :: xs

/-- The sort `entries.sort((a, b) => b.timestamp - a.timestamp)` of
`saveSession` (src/unnamed/part_001): newest first. -/
def sortByTimestampDesc : List (ℕ × StoredSession) → List (ℕ × StoredSession)
  | [] => []
  | x :: xs => insertDesc x (sortByTimestampDesc xs)

/-- `saveSession` (src/unnamed/part_001, lines 48-75), returning the
record written to localStorage.  When the store already holds 50 or more
entries, the source builds `newSessions` from the 49 newest entries,
assigns the just-saved session into the stale `sessions` object instead
of `newSessions`, and persists `newSessions` — so the branch taken here
stores only `toKeep` and the new entry is lost.  Below 50 entries the
new entry is written into the store and the whole store persisted. -/
def saveSession (store : List (ℕ × StoredSession)) (hash : ℕ) (data : StoredSession) :
    List (ℕ × StoredSession) :=
  if 50 ≤ store.length then
    let sorted := sortByTimestampDesc store
    let toKeep := sorted.take 49
    toKeep
  else setEntry store hash data

theorem clamp255_nonneg (x : ℚ) : 0 ≤ clamp255 x := le_max_left 0 _

theorem clamp255_le255 (x : ℚ) : clamp255 x ≤ 255 :=
  max_le (by norm_num) (min_le_left 255 x)

theorem sanitizeNumber_mem (v : Option ℚ) (lo hi d : ℚ) (h1 : lo ≤ d) (h2 : d ≤ hi) :
    lo ≤ sanitizeNumber v lo hi d ∧ sanitizeNumber v lo hi d ≤ hi := by
  cases v with
  | none => exact ⟨h1, h2⟩
  | some x => exact ⟨le_max_left lo _, max_le (h1.trans h2) (min_le_left hi x)⟩

theorem renderPages_error_of_failure {ε α : Type} (render : ℕ → Except ε α) (err : ε) :
    ∀ (n start p : ℕ), start ≤ p → p < start + n → render p = .error err →
      ∃ e2, renderPages render start n = .error e2 := by
  intro n
  induction n with
  | zero => intro start p h1 h2 _; omega
  | succ m ih =>
    intro start p h1 h2 hf
    cases hr : render start with
    | error e3 => exact ⟨e3, by simp [renderPages, hr]⟩
    | ok img =>
      have hne : p ≠ start := by
        intro hc
        rw [hc, hr] at hf
        cases hf
      obtain ⟨e2, h⟩ := ih (start + 1) p (by omega) (by omega) hf
      exact ⟨e2, by simp [renderPages, hr, h]⟩

theorem renderPageTriggerN_stable (p k : ℕ) (s : SchedState) (h : p ∈ s.rendering) :
    renderPageTriggerN p k s = (s, 0) := by
  induction k with
  | zero => rfl
  | succ m ih => simp [renderPageTriggerN, renderPageTrigger, h, ih]

theorem applyFiltersData_length (inv br ct sp : ℚ) (smart : Bool) :
    ∀ d : List ℚ, (applyFiltersData inv br ct sp smart d).length = d.length
  | [] => rfl
  | [_] => rfl
  | [_, _] => rfl
  | [_, _, _] => rfl
  | r :: g :: b :: a :: rest => by
      have ih := applyFiltersData_length inv br ct sp smart rest
      show ((applyFiltersPixel inv br ct sp smart ⟨r, g, b⟩).r
          :: (applyFiltersPixel inv br ct sp smart ⟨r, g, b⟩).g
          :: (applyFiltersPixel inv br ct sp smart ⟨r, g, b⟩).b
          :: a :: applyFiltersData inv br ct sp smart rest).length
        = (r :: g :: b :: a :: rest).length
      simp [ih]

theorem applyFiltersData_alpha (inv br ct sp : ℚ) (smart : Bool) :
    ∀ (d : List ℚ) (k : ℕ),
      (applyFiltersData inv br ct sp smart d)[4 * k + 3]? = d[4 * k + 3]?
  | [], _ => rfl
  | [_], _ => rfl
  | [_, _], _ => rfl
  | [_, _, _], _ => rfl
  | r :: g :: b :: a :: rest, 0 => by
      have h3 : 4 * 0 + 3 = 0 + 1 + 1 + 1 := by norm_num
      rw [h3]
      show ((applyFiltersPixel inv br ct sp smart ⟨r, g, b⟩).r
          :: (applyFiltersPixel inv br ct sp smart ⟨r, g, b⟩).g
          :: (applyFiltersPixel inv br ct sp smart ⟨r, g, b⟩).b
          :: a :: applyFiltersData inv br ct sp smart rest)[0 + 1 + 1 + 1]?
        = (r :: g :: b :: a :: rest)[0 + 1 + 1 + 1]?
      simp only [List.getElem?_cons_succ, List.getElem?_cons_zero]
  | r :: g :: b :: a :: rest, (k + 1) => by
      have ih := applyFiltersData_alpha inv br ct sp smart rest k
      have harith : 4 * (k + 1) + 3 = (4 * k + 3) + 1 + 1 + 1 + 1 := by ring
      rw [harith]
      show ((applyFiltersPixel inv br ct sp smart ⟨r, g, b⟩).r
          :: (applyFiltersPixel inv br ct sp smart ⟨r, g, b⟩).g
          :: (applyFiltersPixel inv br ct sp smart ⟨r, g, b⟩).b
          :: a :: applyFiltersData inv br ct sp smart rest)[(4 * k + 3) + 1 + 1 + 1 + 1]?
        = (r :: g :: b :: a :: rest)[(4 * k + 3) + 1 + 1 + 1 + 1]?
      simp only [List.getElem?_cons_succ]
      exact ih

/-- Claim C1: for every pixel with channels in [0,255] and every clamped
filter setting, the exact pixel transform `applyFilters` performs
exactly the specified six steps in the fixed order: inversion, then
(in colour-preserve mode only) HSL hue rotation by 180 degrees followed
by the +10% saturation boost around the channel mean, then brightness,
contrast, sepia blend, and the final clamp to [0,255].  The pipeline
assembled verbatim from the specification words coincides with the
source loop body. -/
theorem applyFilters_follows_spec_pipeline (inv br ct sp : ℚ) (smart : Bool) (px : RGB)
    (hr1 : 0 ≤ px.r) (hr2 : px.r ≤ 255) (hg1 : 0 ≤ px.g) (hg2 : px.g ≤ 255)
    (hb1 : 0 ≤ px.b) (hb2 : px.b ≤ 255)
    (hi1 : 0 ≤ inv) (hi2 : inv ≤ 100) (hbr1 : 0 ≤ br) (hbr2 : br ≤ 300)
    (hc1 : 0 ≤ ct) (hc2 : ct ≤ 300) (hs1 : 0 ≤ sp) (hs2 : sp ≤ 100) :
    specPixelTransform inv br ct sp smart px = applyFiltersPixel inv br ct sp smart px := by
  cases smart <;> rfl

/-- Witness for C1 at the documented default settings on a saturated
blue-ish pixel in colour-preserve mode. -/
theorem applyFilters_follows_spec_pipeline_witness :
    specPixelTransform 90 90 90 10 true ⟨10, 20, 250⟩
      = applyFiltersPixel 90 90 90 10 true ⟨10, 20, 250⟩ :=
  applyFilters_follows_spec_pipeline 90 90 90 10 true ⟨10, 20, 250⟩
    (by norm_num) (by norm_num) (by norm_num) (by norm_num) (by norm_num) (by norm_num)
    (by norm_num) (by norm_num) (by norm_num) (by norm_num) (by norm_num) (by norm_num)
    (by norm_num) (by norm_num)

/-- Claim C2: with dark mode disabled the export path applies no transform to
the rendered page surface — the pixel buffer reaching the encoder is
identical to the rendered one, for every filter setting and buffer. -/
theorem exportPagePixels_identity_when_darkMode_off
    (smart : Bool) (inv br ct sp : ℚ) (data : List ℚ) :
    exportPagePixels false smart inv br ct sp data = data := rfl

/-- Claim C3: for every input pixel with channels in [0,255] and every clamped
setting combination, in both standard and colour-preserve mode, every
output channel of `applyFilters` lies in [0,255]. -/
theorem applyFiltersPixel_range (inv br ct sp : ℚ) (smart : Bool) (px : RGB)
    (hr1 : 0 ≤ px.r) (hr2 : px.r ≤ 255) (hg1 : 0 ≤ px.g) (hg2 : px.g ≤ 255)
    (hb1 : 0 ≤ px.b) (hb2 : px.b ≤ 255)
    (hi1 : 0 ≤ inv) (hi2 : inv ≤ 100) (hbr1 : 0 ≤ br) (hbr2 : br ≤ 300)
    (hc1 : 0 ≤ ct) (hc2 : ct ≤ 300) (hs1 : 0 ≤ sp) (hs2 : sp ≤ 100) :
    0 ≤ (applyFiltersPixel inv br ct sp smart px).r
      ∧ (applyFiltersPixel inv br ct sp smart px).r ≤ 255
      ∧ 0 ≤ (applyFiltersPixel inv br ct sp smart px).g
      ∧ (applyFiltersPixel inv br ct sp smart px).g ≤ 255
      ∧ 0 ≤ (applyFiltersPixel inv br ct sp smart px).b
      ∧ (applyFiltersPixel inv br ct sp smart px).b ≤ 255 :=
  ⟨clamp255_nonneg _, clamp255_le255 _, clamp255_nonneg _, clamp255_le255 _,
   clamp255_nonneg _, clamp255_le255 _⟩

/-- Witness for C3 on a pure white pixel at the documented default
settings in colour-preserve mode. -/
theorem applyFiltersPixel_range_witness :
    0 ≤ (applyFiltersPixel 90 90 90 10 true ⟨255, 255, 255⟩).r
      ∧ (applyFiltersPixel 90 90 90 10 true ⟨255, 255, 255⟩).r ≤ 255
      ∧ 0 ≤ (applyFiltersPixel 90 90 90 10 true ⟨255, 255, 255⟩).g
      ∧ (applyFiltersPixel 90 90 90 10 true ⟨255, 255, 255⟩).g ≤ 255
      ∧ 0 ≤ (applyFiltersPixel 90 90 90 10 true ⟨255, 255, 255⟩).b
      ∧ (applyFiltersPixel 90 90 90 10 true ⟨255, 255, 255⟩).b ≤ 255 :=
  applyFiltersPixel_range 90 90 90 10 true ⟨255, 255, 255⟩
    (by norm_num) (by norm_num) (by norm_num) (by norm_num) (by norm_num) (by norm_num)
    (by norm_num) (by norm_num) (by norm_num) (by norm_num) (by norm_num) (by norm_num)
    (by norm_num) (by norm_num)

/-- Claim C6: invoking fit-to-width and then immediately fit-to-height yields
scale `clamp((H-32)/h, [0.01, 9])`; the fit computation reads only the
container client size and the unscaled page geometry, never the prior
scale, so consecutive fit operations are not cumulative. -/
theorem fitToHeight_after_fitToWidth (st : ZoomState) (cw ch pw ph : ℚ) :
    (zoomToFitHeight (zoomToFit st cw ch pw ph) cw ch pw ph).scale
        = min (max ((ch - 32) / ph) 0.01) 9
      ∧ ∀ st2 : ZoomState,
        (zoomToFitHeight (zoomToFit st2 cw ch pw ph) cw ch pw ph).scale
          = (zoomToFitHeight (zoomToFit st cw ch pw ph) cw ch pw ph).scale :=
  ⟨rfl, fun _ => rfl⟩

/-- Claim C7: a `goToPage` request with an out-of-range target (below 1 or
above the page count) is a no-op that leaves `currentPage` unchanged and
raises no error, while an in-range target is honoured. -/
theorem goToPage_guard (st : NavState) (n : ℤ) :
    ((n < 1 ∨ st.totalPages < n) → goToPage st n = st)
      ∧ (1 ≤ n → n ≤ st.totalPages → (goToPage st n).currentPage = n) := by
  constructor
  · intro h
    unfold goToPage
    rw [if_neg (by omega : ¬(1 ≤ n ∧ n ≤ st.totalPages))]
  · intro h1 h2
    unfold goToPage
    rw [if_pos ⟨h1, h2⟩]

/-- Witness for C7: with 10 pages and current page 3, jumping to page 0
changes nothing and jumping to page 5 lands on page 5. -/
theorem goToPage_guard_witness :
    goToPage ⟨3, 10⟩ 0 = ⟨3, 10⟩ ∧ (goToPage ⟨3, 10⟩ 5).currentPage = 5 :=
  ⟨(goToPage_guard ⟨3, 10⟩ 0).1 (Or.inl (by norm_num)),
   (goToPage_guard ⟨3, 10⟩ 5).2 (by norm_num) (by norm_num)⟩

/-- Claim C4: if rendering any page in [1, total] throws during export,
the whole export aborts: the artifact is never assembled and saved
(`pdf.save` is not reached, so nothing — in particular no document
holding only the pages rendered before the failure — is persisted) and
the single terminal error is reported. -/
theorem exportPDF_aborts_on_page_failure {ε α : Type} (render : ℕ → Except ε α)
    (total p : ℕ) (e : ε) (h1 : 1 ≤ p) (h2 : p ≤ total) (hf : render p = .error e) :
    (exportPDF render total).saved = none ∧ (exportPDF render total).errorReported = true := by
  obtain ⟨e2, h⟩ := renderPages_error_of_failure render e total 1 p h1 (by omega) hf
  unfold exportPDF
  rw [h]
  exact ⟨rfl, rfl⟩

/-- Witness for C4: a 3-page document whose page 2 fails to render
produces no artifact and reports the error. -/
theorem exportPDF_aborts_on_page_failure_witness :
    (exportPDF (fun n => if n = 2 then Except.error "render failed" else Except.ok n) 3).saved
        = none
      ∧ (exportPDF (fun n => if n = 2 then Except.error "render failed" else Except.ok n)
          3).errorReported = true :=
  exportPDF_aborts_on_page_failure
    (fun n => if n = 2 then Except.error "render failed" else Except.ok n)
    3 2 "render failed" (by norm_num) (by norm_num) rfl

/-- Claim C5: in scroll mode, while a render of a page is in flight,
every further render request for that page is a no-op; starting from a
page not in flight, any number k ≥ 1 of overlapping visibility triggers
with no completion in between starts exactly one render and leaves the
page in flight, so no two renders of the same page ever run
concurrently. -/
theorem renderPage_starts_once (s : SchedState) (p k : ℕ)
    (h1 : p ∉ s.rendering) (h2 : 1 ≤ k) :
    (∀ s2 : SchedState, p ∈ s2.rendering → renderPageTrigger s2 p = (s2, false))
      ∧ (renderPageTriggerN p k s).2 = 1
      ∧ p ∈ (renderPageTriggerN p k s).1.rendering := by
  obtain ⟨m, rfl⟩ : ∃ m, k = m + 1 := ⟨k - 1, by omega⟩
  have ht : renderPageTrigger s p = ({ s with rendering := insert p s.rendering }, true) := by
    simp [renderPageTrigger, h1]
  have hmem : p ∈ (insert p s.rendering : Finset ℕ) := Finset.mem_insert_self p _
  have hstable := renderPageTriggerN_stable p m { s with rendering := insert p s.rendering } hmem
  have hN : renderPageTriggerN p (m + 1) s = ({ s with rendering := insert p s.rendering }, 1) := by
    simp [renderPageTriggerN, ht, hstable]
  exact ⟨fun s2 hmem2 => by simp [renderPageTrigger, hmem2], by rw [hN], by rw [hN]; exact hmem⟩

/-- Witness for C5: page 7 of an idle scheduler receives three rapid
overlapping triggers and starts exactly one render. -/
theorem renderPage_starts_once_witness :
    (renderPageTriggerN 7 3 ⟨∅, ∅⟩).2 = 1 ∧ 7 ∈ (renderPageTriggerN 7 3 ⟨∅, ∅⟩).1.rendering :=
  ⟨(renderPage_starts_once ⟨∅, ∅⟩ 7 3 (by decide) (by norm_num)).2.1,
   (renderPage_starts_once ⟨∅, ∅⟩ 7 3 (by decide) (by norm_num)).2.2⟩

/-- Counterexample to C8 as stated: an out-of-range URL value does not
fall back to the default — `inv=150` with default inversion 90 parses to
the clamped bound 100, which differs from 90. -/
theorem urlParam_out_of_range_clamped_not_defaulted :
    (parseUrlNumericParams ⟨90, 90, 90, 10, 1, 1⟩
        ⟨some 150, none, none, none, none, none⟩).inversion = 100
      ∧ ((100 : ℚ) ≠ 90) := by
  constructor
  · show sanitizeNumber (some 150) 0 100 90 = 100
    norm_num [sanitizeNumber]
  · norm_num

/-- Claim C8 (amended): every numeric URL parameter is independently
sanitized against its documented range — a missing or unparsable value
falls back to the default, a present value is clamped into the range —
and the parse never raises and never yields a value outside the
documented range (given in-range defaults). -/
theorem parseUrlNumericParams_sanitized (d : NumericSettings) (raw : UrlNumericParams)
    (h1 : 0 ≤ d.inversion) (h2 : d.inversion ≤ 100)
    (h3 : 0 ≤ d.brightness) (h4 : d.brightness ≤ 300)
    (h5 : 0 ≤ d.contrast) (h6 : d.contrast ≤ 300)
    (h7 : 0 ≤ d.sepia) (h8 : d.sepia ≤ 100) :
    (0 ≤ (parseUrlNumericParams d raw).inversion ∧ (parseUrlNumericParams d raw).inversion ≤ 100)
      ∧ (0 ≤ (parseUrlNumericParams d raw).brightness
          ∧ (parseUrlNumericParams d raw).brightness ≤ 300)
      ∧ (0 ≤ (parseUrlNumericParams d raw).contrast
          ∧ (parseUrlNumericParams d raw).contrast ≤ 300)
      ∧ (0 ≤ (parseUrlNumericParams d raw).sepia ∧ (parseUrlNumericParams d raw).sepia ≤ 100)
      ∧ (1 ≤ (parseUrlNumericParams d raw).page ∧ (parseUrlNumericParams d raw).page ≤ 10000)
      ∧ (0.5 ≤ (parseUrlNumericParams d raw).zoom ∧ (parseUrlNumericParams d raw).zoom ≤ 3)
      ∧ (raw.inv = none → (parseUrlNumericParams d raw).inversion = d.inversion)
      ∧ (raw.br = none → (parseUrlNumericParams d raw).brightness = d.brightness)
      ∧ (raw.ct = none → (parseUrlNumericParams d raw).contrast = d.contrast)
      ∧ (raw.sp = none → (parseUrlNumericParams d raw).sepia = d.sepia)
      ∧ (∀ v, raw.inv = some v → (parseUrlNumericParams d raw).inversion = max 0 (min 100 v))
      ∧ (∀ v, raw.br = some v → (parseUrlNumericParams d raw).brightness = max 0 (min 300 v))
      ∧ (∀ v, raw.ct = some v → (parseUrlNumericParams d raw).contrast = max 0 (min 300 v))
      ∧ (∀ v, raw.sp = some v → (parseUrlNumericParams d raw).sepia = max 0 (min 100 v))
      ∧ (∀ v, raw.p = some v → (parseUrlNumericParams d raw).page = max 1 (min 10000 v))
      ∧ (∀ v, raw.z = some v → (parseUrlNumericParams d raw).zoom = max 0.5 (min 3 v)) := by
  refine ⟨sanitizeNumber_mem raw.inv 0 100 d.inversion h1 h2,
    sanitizeNumber_mem raw.br 0 300 d.brightness h3 h4,
    sanitizeNumber_mem raw.ct 0 300 d.contrast h5 h6,
    sanitizeNumber_mem raw.sp 0 100 d.sepia h7 h8,
    sanitizeNumber_mem raw.p 1 10000 1 (by norm_num) (by norm_num),
    sanitizeNumber_mem raw.z 0.5 3 1 (by norm_num) (by norm_num),
    fun h => ?_, fun h => ?_, fun h => ?_, fun h => ?_,
    fun v h => ?_, fun v h => ?_, fun v h => ?_, fun v h => ?_, fun v h => ?_, fun v h => ?_⟩
  all_goals
    simp only [parseUrlNumericParams, h, sanitizeNumber]

/-- Witness for C8 at concrete defaults and raw parameters, several of
them out of range. -/
theorem parseUrlNumericParams_sanitized_witness :
    0 ≤ (parseUrlNumericParams ⟨90, 90, 90, 10, 1, 1⟩
        ⟨some 150, some (-5), some 1000, some 50, some 0, some 10⟩).inversion
      ∧ (parseUrlNumericParams ⟨90, 90, 90, 10, 1, 1⟩
        ⟨some 150, some (-5), some 1000, some 50, some 0, some 10⟩).inversion ≤ 100 :=
  (parseUrlNumericParams_sanitized ⟨90, 90, 90, 10, 1, 1⟩
    ⟨some 150, some (-5), some 1000, some 50, some 0, some 10⟩
    (by norm_num) (by norm_num) (by norm_num) (by norm_num)
    (by norm_num) (by norm_num) (by norm_num) (by norm_num)).1

/-- Claim C9 evaluated at the failing input: a store already holding 50
sessions (keys 0..49, timestamps 0..49) on which `saveSession` is called
with the fresh key 999.  The code persists 49 entries, evicts the oldest
(key 0) — but the just-saved session (key 999) is absent from the stored
set, because the source assigns it into the stale object instead of the
persisted one.  This contradicts the stated (and clearly intended)
behaviour that the just-saved session is present after every save. -/
theorem saveSession_at_capacity_drops_saved_entry :
    999 ∉ (saveSession ((List.range 50).map (fun i => (i, (⟨1, 1, i⟩ : StoredSession))))
        999 ⟨5, 1, 100⟩).map Prod.fst
      ∧ (saveSession ((List.range 50).map (fun i => (i, (⟨1, 1, i⟩ : StoredSession))))
        999 ⟨5, 1, 100⟩).length = 49
      ∧ 0 ∉ (saveSession ((List.range 50).map (fun i => (i, (⟨1, 1, i⟩ : StoredSession))))
        999 ⟨5, 1, 100⟩).map Prod.fst
      ∧ 1 ∈ (saveSession ((List.range 50).map (fun i => (i, (⟨1, 1, i⟩ : StoredSession))))
        999 ⟨5, 1, 100⟩).map Prod.fst := by
  decide

/-- Claim C10: for every ImageData buffer (length divisible by 4) and
every setting combination, in both standard and colour-preserve mode,
`applyFilters` changes neither the buffer length nor any alpha byte
`data[4k+3]`. -/
theorem applyFiltersData_preserves_alpha_and_length (inv br ct sp : ℚ) (smart : Bool)
    (d : List ℚ) (h : d.length % 4 = 0) :
    (applyFiltersData inv br ct sp smart d).length = d.length
      ∧ ∀ k : ℕ, (applyFiltersData inv br ct sp smart d)[4 * k + 3]? = d[4 * k + 3]? :=
  ⟨applyFiltersData_length inv br ct sp smart d,
   fun k => applyFiltersData_alpha inv br ct sp smart d k⟩

/-- Witness for C10 on a concrete two-pixel buffer at the default
settings in colour-preserve mode. -/
theorem applyFiltersData_preserves_alpha_and_length_witness :
    (applyFiltersData 90 90 90 10 true [1, 2, 3, 4, 5, 6, 7, 8]).length
        = ([1, 2, 3, 4, 5, 6, 7, 8] : List ℚ).length
      ∧ (applyFiltersData 90 90 90 10 true [1, 2, 3, 4, 5, 6, 7, 8])[4 * 0 + 3]?
        = ([1, 2, 3, 4, 5, 6, 7, 8] : List ℚ)[4 * 0 + 3]? :=
  ⟨(applyFiltersData_preserves_alpha_and_length 90 90 90 10 true
      [1, 2, 3, 4, 5, 6, 7, 8] (by rfl)).1,
   (applyFiltersData_preserves_alpha_and_length 90 90 90 10 true
      [1, 2, 3, 4, 5, 6, 7, 8] (by rfl)).2 0⟩

end DarkPdf
